import Mathlib

/-!
Verification development for the Data Transfer Hub S3 plugin composition core.

The embedding below translates the two visible source files:
  * `source/lib/main-stack.ts`   (class `DataTransferS3Stack`)
  * `common-resources.ts`        (class `CommonStack`)
into executable Lean definitions.  CDK constructs are modelled as plain
records carrying the properties the source passes to them; deploy-time
tokens (`Aws.REGION`, generated table and queue names) are inputs supplied
through a `DeployContext`.  The class `Ec2WorkerStack` lives in a file that
is not among the visible sources; the single definition modelled from the
spec rather than from source code is marked by a doc comment starting with
`Modelled from the spec`.
-/

namespace DataTransferS3

/--
The full parameter set declared by `DataTransferS3Stack` via `CfnParameter`
(main-stack.ts lines 81-252).  String-typed parameters are strings; the
three capacity parameters are CloudFormation `Number`s, modelled as `Int`;
`ecsSubnets` is a CloudFormation list parameter, modelled as `List String`.
Field names follow the source (`srcPrefix`/`destPrefix` are shortened to
`srcPfx`/`destPfx`, `destStorageClass` to `destStorageKind`).
-/
structure ParamSet where
  srcType : String
  srcBucket : String
  srcPfx : String
  srcRegion : String
  srcEndpoint : String
  srcInCurrentAccount : String
  srcCredentials : String
  destBucket : String
  destPfx : String
  destRegion : String
  destInCurrentAccount : String
  destCredentials : String
  destStorageKind : String
  destAcl : String
  ecsClusterName : String
  ecsVpcId : String
  ecsSubnets : List String
  alarmEmail : String
  includeMetadata : String
  srcEvent : String
  finderDepth : String
  finderNumber : String
  workerNumber : String
  maxCapacity : Int
  minCapacity : Int
  desiredCapacity : Int
deriving DecidableEq

/--
Deploy-time values that CDK leaves as tokens at composition time: the
current region (`Aws.REGION`) and the generated physical names of the job
table and the work queue created by `CommonStack`.
-/
structure DeployContext where
  region : String
  jobTableName : String
  sqsQueueName : String
deriving DecidableEq

/--
`this.node.tryGetContext('runType') || RunType.EC2` (main-stack.ts line 77):
an absent or falsy (empty) context value yields the enum member
`RunType.EC2`, whose value is the string "EC2".
-/
def resolveRunType (ctxVal : Option String) : String :=
  match ctxVal with
  | none => "EC2"
  | some s => if s = "" then "EC2" else s

/- ### Parameter validation (declared constraints)

Each `CfnParameter` in main-stack.ts declares at most an `allowedValues`
list or an `allowedPattern`; these are the only validation constraints the
composition declares, and they are checked below exactly as declared.  The
subnet-list parameter `ecsSubnets` (lines 207-212) declares neither: its
description asks for at least two subnets, but no constraint on the list
length is declared anywhere. -/

/-- JavaScript regex character class backslash-w: ASCII letters, digits, underscore. -/
def isWordChar (c : Char) : Bool := c.isAlpha || c.isDigit || c = '_'

/-- The regex class of characters allowed after the first in the local part. -/
def isLocalTailChar (c : Char) : Bool := isWordChar c || c = '-' || c = '.' || c = '+'

/-- Split a character list on a separator character (the separator is dropped). -/
def splitOnChar (sep : Char) : List Char → List (List Char)
  | [] => [[]]
  | c :: cs =>
    let rest := splitOnChar sep cs
    if c = sep then [] :: rest
    else (c :: rest.headD []) :: rest.tail

/-- Local part of the email pattern: a word character, then local-tail characters. -/
def localPartOk : List Char → Bool
  | [] => false
  | c :: cs => isWordChar c && cs.all isLocalTailChar

/-- One dotted domain label: an alphanumeric character followed by one or more alphanumerics or hyphens. -/
def domainLabelOk : List Char → Bool
  | [] => false
  | c :: cs => (c.isAlpha || c.isDigit) && !cs.isEmpty && cs.all (fun d => d.isAlpha || d.isDigit || d = '-')

/-- The final domain component: 2 to 14 ASCII letters. -/
def tldOk (s : List Char) : Bool :=
  decide (2 ≤ s.length) && decide (s.length ≤ 14) && s.all Char.isAlpha

/-- Domain of the email pattern: one or more labels each ending in a dot, then the final component. -/
def domainOk (s : List Char) : Bool :=
  match (splitOnChar '.' s).reverse with
  | [] => false
  | tld :: labels => !labels.isEmpty && tldOk tld && labels.all domainLabelOk

/--
The `allowedPattern` of the `alarmEmail` parameter (main-stack.ts line 215).
Since neither the local-part class nor the domain classes contain the at
sign, and the label class does not contain a dot, the regex match is
equivalent to this deterministic split-based check.
-/
def emailOk (s : String) : Bool :=
  match splitOnChar '@' s.toList with
  | [l, d] => localPartOk l && domainOk d
  | _ => false

/--
The conjunction of every declared parameter constraint in main-stack.ts:
`allowedValues` memberships and the email `allowedPattern`.  No declared
constraint mentions `ecsSubnets`, so validation does not read the subnet
list.
-/
def validateParams (p : ParamSet) : Bool :=
  ["Amazon_S3", "Aliyun_OSS", "Qiniu_Kodo", "Tencent_COS"].contains p.srcType &&
  ["true", "false"].contains p.srcInCurrentAccount &&
  ["true", "false"].contains p.destInCurrentAccount &&
  ["STANDARD", "STANDARD_IA", "ONEZONE_IA", "INTELLIGENT_TIERING"].contains p.destStorageKind &&
  ["private", "public-read", "public-read-write", "authenticated-read",
    "aws-exec-read", "bucket-owner-read", "bucket-owner-full-control"].contains p.destAcl &&
  ["true", "false"].contains p.includeMetadata &&
  ["No", "Create", "CreateAndDelete"].contains p.srcEvent &&
  emailOk p.alarmEmail

/- ### Shared resources: CommonStack (common-resources.ts) -/

/-- Queue encryption setting; the CDK `sqs.Queue` default, when the property is omitted, is unencrypted. -/
inductive QueueEncryption where
  | unencrypted
  | kmsManaged
deriving DecidableEq

/-- Redrive policy attached to a queue: a dead-letter target with a receive-count bound. -/
structure RedrivePolicy where
  maxReceiveCount : Nat
deriving DecidableEq

/-- Properties the source passes to `sqs.Queue`. -/
structure QueueSpec where
  visibilityTimeoutMinutes : Nat
  retentionDays : Nat
  encryption : QueueEncryption
  deadLetter : Option RedrivePolicy
deriving DecidableEq

/-- CloudWatch comparison operators used by the alarm model. -/
inductive ComparisonOp where
  | greaterThanThreshold
  | greaterThanOrEqualToThreshold
  | lessThanThreshold
deriving DecidableEq

/-- Properties the source passes to `cw.Alarm` for the DLQ alarm. -/
structure AlarmSpec where
  threshold : Nat
  comparison : ComparisonOp
  evaluationPeriods : Nat
  datapointsToAlarm : Nat
deriving DecidableEq

/-- Properties the source passes to `ddb.Table`. -/
structure TableSpec where
  partitionKey : String
  pointInTimeRecovery : Bool
deriving DecidableEq

/-- The resources `CommonStack` builds: job table, DLQ, work queue, DLQ alarm, email subscription. -/
structure CommonStackSpec where
  jobTable : TableSpec
  sqsQueueDLQ : QueueSpec
  sqsQueue : QueueSpec
  alarmDLQ : AlarmSpec
  alarmEmailSub : String
deriving DecidableEq

/--
`CommonStack` (common-resources.ts lines 39-154): the job table; the DLQ
with 30-minute visibility, 14-day retention and KMS-managed encryption; the
work queue with 15-minute visibility, 14-day retention, no encryption
property (construct default: unencrypted, with a cfn-nag W48 suppression
"No need to use encryption") and a redrive policy of 5 receives to the DLQ;
and the zero-threshold alarm on the DLQ visible-message metric.
-/
def commonStack (alarmEmail : String) : CommonStackSpec :=
  { jobTable := { partitionKey := "ObjectKey", pointInTimeRecovery := true }
    sqsQueueDLQ :=
      { visibilityTimeoutMinutes := 30
        retentionDays := 14
        encryption := QueueEncryption.kmsManaged
        deadLetter := none }
    sqsQueue :=
      { visibilityTimeoutMinutes := 15
        retentionDays := 14
        encryption := QueueEncryption.unencrypted
        deadLetter := some { maxReceiveCount := 5 } }
    alarmDLQ :=
      { threshold := 0
        comparison := ComparisonOp.greaterThanThreshold
        evaluationPeriods := 1
        datapointsToAlarm := 1 }
    alarmEmailSub := alarmEmail }

/-- A single sampled metric datapoint breaches the alarm per its comparison operator and threshold. -/
def breaches (a : AlarmSpec) (c : Nat) : Bool :=
  match a.comparison with
  | ComparisonOp.greaterThanThreshold => decide (a.threshold < c)
  | ComparisonOp.greaterThanOrEqualToThreshold => decide (a.threshold ≤ c)
  | ComparisonOp.lessThanThreshold => decide (c < a.threshold)

/--
CloudWatch alarm evaluation on a window of sampled counts (most recent
first): the alarm fires when at least `datapointsToAlarm` of the last
`evaluationPeriods` datapoints breach.
-/
def alarmFires (a : AlarmSpec) (window : List Nat) : Bool :=
  decide (a.datapointsToAlarm ≤ List.countP (breaches a) (window.take a.evaluationPeriods))

/- ### Environment contracts (main-stack.ts lines 357-378 and 394-419) -/

/-- The `finderEnv` object passed to the ECS finder task, field for field in source order. -/
def finderEnv (dc : DeployContext) (p : ParamSet) : List (String × String) :=
  [("AWS_DEFAULT_REGION", dc.region),
   ("JOB_TABLE_NAME", dc.jobTableName),
   ("JOB_QUEUE_NAME", dc.sqsQueueName),
   ("SOURCE_TYPE", p.srcType),
   ("SRC_BUCKET", p.srcBucket),
   ("SRC_PREFIX", p.srcPfx),
   ("SRC_REGION", p.srcRegion),
   ("SRC_ENDPOINT", p.srcEndpoint),
   ("SRC_CREDENTIALS", p.srcCredentials),
   ("SRC_IN_CURRENT_ACCOUNT", p.srcInCurrentAccount),
   ("DEST_BUCKET", p.destBucket),
   ("DEST_PREFIX", p.destPfx),
   ("DEST_REGION", p.destRegion),
   ("DEST_CREDENTIALS", p.destCredentials),
   ("DEST_IN_CURRENT_ACCOUNT", p.destInCurrentAccount),
   ("FINDER_DEPTH", p.finderDepth),
   ("FINDER_NUMBER", p.finderNumber)]

/-- The `workerEnv` object passed to the EC2 worker fleet, field for field in source order. -/
def workerEnv (dc : DeployContext) (p : ParamSet) : List (String × String) :=
  [("JOB_TABLE_NAME", dc.jobTableName),
   ("JOB_QUEUE_NAME", dc.sqsQueueName),
   ("SOURCE_TYPE", p.srcType),
   ("SRC_BUCKET", p.srcBucket),
   ("SRC_PREFIX", p.srcPfx),
   ("SRC_REGION", p.srcRegion),
   ("SRC_ENDPOINT", p.srcEndpoint),
   ("SRC_CREDENTIALS", p.srcCredentials),
   ("SRC_IN_CURRENT_ACCOUNT", p.srcInCurrentAccount),
   ("DEST_BUCKET", p.destBucket),
   ("DEST_PREFIX", p.destPfx),
   ("DEST_REGION", p.destRegion),
   ("DEST_CREDENTIALS", p.destCredentials),
   ("DEST_IN_CURRENT_ACCOUNT", p.destInCurrentAccount),
   ("DEST_STORAGE_CLASS", p.destStorageKind),
   ("DEST_ACL", p.destAcl),
   ("FINDER_DEPTH", p.finderDepth),
   ("FINDER_NUMBER", p.finderNumber),
   ("WORKER_NUMBER", p.workerNumber),
   ("INCLUDE_METADATA", p.includeMetadata)]

/- ### Permission grants (main-stack.ts lines 324-354, 389-392, 436-439) -/

/-- The two compute roles that receive grants. -/
inductive RoleId where
  | finderTaskRole
  | workerAsgRole
deriving DecidableEq

/-- Resources that appear as grant targets. -/
inductive ResId where
  | jobTable
  | srcCredSecret
  | destCredSecret
  | sqsQueue
  | srcBucketRes
  | destBucketRes
deriving DecidableEq

/-- The access level a grant confers. -/
inductive Access where
  | tableReadWriteData
  | secretRead
  | sendMessages
  | consumeMessages
  | bucketRead
  | bucketReadWrite
deriving DecidableEq

/-- One permission grant edge in the permission graph. -/
structure Grant where
  role : RoleId
  res : ResId
  access : Access
deriving DecidableEq

/--
Grants attached to the finder task role: the shared `defaultPolicy`
(DynamoDB read+write statements on the job table, scoped secret reads),
`grantSendMessages` on the work queue, `grantRead` on the source bucket and
`grantRead` on the destination bucket.
-/
def finderGrants : List Grant :=
  [{ role := RoleId.finderTaskRole, res := ResId.jobTable, access := Access.tableReadWriteData },
   { role := RoleId.finderTaskRole, res := ResId.srcCredSecret, access := Access.secretRead },
   { role := RoleId.finderTaskRole, res := ResId.destCredSecret, access := Access.secretRead },
   { role := RoleId.finderTaskRole, res := ResId.sqsQueue, access := Access.sendMessages },
   { role := RoleId.finderTaskRole, res := ResId.srcBucketRes, access := Access.bucketRead },
   { role := RoleId.finderTaskRole, res := ResId.destBucketRes, access := Access.bucketRead }]

/--
Grants attached to the EC2 worker fleet role (only inside the EC2 branch):
the shared `defaultPolicy`, `grantConsumeMessages` on the work queue,
`grantRead` on the source bucket and `grantReadWrite` on the destination
bucket.
-/
def workerGrants : List Grant :=
  [{ role := RoleId.workerAsgRole, res := ResId.jobTable, access := Access.tableReadWriteData },
   { role := RoleId.workerAsgRole, res := ResId.srcCredSecret, access := Access.secretRead },
   { role := RoleId.workerAsgRole, res := ResId.destCredSecret, access := Access.secretRead },
   { role := RoleId.workerAsgRole, res := ResId.sqsQueue, access := Access.consumeMessages },
   { role := RoleId.workerAsgRole, res := ResId.srcBucketRes, access := Access.bucketRead },
   { role := RoleId.workerAsgRole, res := ResId.destBucketRes, access := Access.bucketReadWrite }]

/- ### Compute stacks -/

/-- `EcsTaskProps` passed to `EcsStack` (main-stack.ts lines 380-386). -/
structure EcsTaskSpec where
  env : List (String × String)
  ecsSubnetIds : List String
  ecsClusterName : String
  cliRelease : String
deriving DecidableEq

/-- `Ec2WorkerProps` passed to `Ec2WorkerStack` (main-stack.ts lines 424-432). -/
structure Ec2WorkerProps where
  env : List (String × String)
  queueName : String
  maxCapacity : Int
  minCapacity : Int
  desiredCapacity : Int
  cliRelease : String
deriving DecidableEq

/-- The worker fleet resource specification the EC2 branch produces. -/
structure Ec2WorkerSpec where
  env : List (String × String)
  queueName : String
  maxCapacity : Int
  minCapacity : Int
  desiredCapacity : Int
  cliRelease : String
  asgName : String
deriving DecidableEq

/-- The fleet specification built from validated worker props; the autoscaling group name is a deploy-time handle. -/
def ec2FleetSpecOf (pr : Ec2WorkerProps) : Ec2WorkerSpec :=
  { env := pr.env
    queueName := pr.queueName
    maxCapacity := pr.maxCapacity
    minCapacity := pr.minCapacity
    desiredCapacity := pr.desiredCapacity
    cliRelease := pr.cliRelease
    asgName := "Worker-ASG" }

/--
Modelled from the spec: the file `ec2-worker-stack.ts` defining the class
`Ec2WorkerStack` is not among the visible sources (main-stack.ts only
imports and instantiates it).  Per spec section 4.3, the FLEET branch
enforces `minCapacity ≤ desiredCapacity ≤ maxCapacity`, all non-negative
integers, before any fleet resource is created, and an inconsistent pair
(`min > max`) is a fatal composition error reported before any fleet
resource exists.
-/
def buildEc2WorkerStack (pr : Ec2WorkerProps) : Except String Ec2WorkerSpec :=
  if pr.minCapacity < 0 ∨ pr.maxCapacity < pr.minCapacity ∨
     pr.desiredCapacity < pr.minCapacity ∨ pr.maxCapacity < pr.desiredCapacity then
    Except.error "Invalid Auto Scaling Group capacity settings"
  else
    Except.ok (ec2FleetSpecOf pr)

/- ### Event and dashboard stacks -/

/-- `EventProps` passed to `EventStack` (main-stack.ts lines 455-460). -/
structure EventSpec where
  events : String
  bucketName : String
  pfx : String
  queueName : String
deriving DecidableEq

/-- `DBProps` passed to `DashboardStack` (main-stack.ts lines 445-449). -/
structure DashboardSpec where
  runType : String
  queueName : String
  asgName : Option String
deriving DecidableEq

/--
The `UseS3Event` condition (main-stack.ts lines 468-477):
`Fn.conditionAnd` of `Fn.conditionEquals('true', srcInCurrentAccount)`,
`Fn.conditionEquals('Amazon_S3', srcType)` and
`Fn.conditionNot(Fn.conditionEquals('No', srcEvent))`.
-/
def useS3Event (p : ParamSet) : Bool :=
  (p.srcInCurrentAccount == "true") && (p.srcType == "Amazon_S3") && !(p.srcEvent == "No")

/- ### The composed resource graph -/

/-- One instantiated resource of the final graph, in construction order. -/
inductive Resource where
  | commonRes (c : CommonStackSpec)
  | ecsFinder (s : EcsTaskSpec)
  | ec2WorkerFleet (s : Ec2WorkerSpec)
  | dashboard (d : DashboardSpec)
  | eventSubTopology (e : EventSpec) (active : Bool)
deriving DecidableEq

/-- The output of one composition pass of `DataTransferS3Stack`. -/
structure MainStackOutput where
  runType : String
  capacityParamsDeclared : Bool
  grants : List Grant
  resources : List Resource
  asgName : Option String
deriving DecidableEq

/-- The `cliRelease` constant (main-stack.ts line 79). -/
def cliRelease : String := "1.0.0"

/-- The `EcsTaskProps` record built in main-stack.ts lines 380-386. -/
def ecsTaskSpecOf (dc : DeployContext) (p : ParamSet) : EcsTaskSpec :=
  { env := finderEnv dc p
    ecsSubnetIds := p.ecsSubnets
    ecsClusterName := p.ecsClusterName
    cliRelease := cliRelease }

/-- The `Ec2WorkerProps` record built in main-stack.ts lines 424-432. -/
def ec2WorkerProps (dc : DeployContext) (p : ParamSet) : Ec2WorkerProps :=
  { env := workerEnv dc p
    queueName := dc.sqsQueueName
    maxCapacity := p.maxCapacity
    minCapacity := p.minCapacity
    desiredCapacity := p.desiredCapacity
    cliRelease := cliRelease }

/-- The `EventProps` record built in main-stack.ts lines 455-460. -/
def eventSpecOf (dc : DeployContext) (p : ParamSet) : EventSpec :=
  { events := p.srcEvent
    bucketName := p.srcBucket
    pfx := p.srcPfx
    queueName := dc.sqsQueueName }

/--
The `if (runType === RunType.EC2)` branch of main-stack.ts lines 423-442:
outside the EC2 branch no fleet is built; inside it the worker stack is
built from the worker props, propagating its error.
-/
def fleetResult (rt : String) (dc : DeployContext) (p : ParamSet) :
    Except String (Option Ec2WorkerSpec) :=
  if rt = "EC2" then
    match buildEc2WorkerStack (ec2WorkerProps dc p) with
    | Except.error e => Except.error e
    | Except.ok s => Except.ok (some s)
  else
    Except.ok none

/--
The successful composition output: the common stack, the unconditionally
built ECS finder stack, the optional worker fleet, the dashboard bound to
the selected mode and optional fleet name, and the event sub-topology with
its `UseS3Event` activation condition.  Worker grants exist exactly when
the fleet was built.
-/
def mainStackOk (rt : String) (dc : DeployContext) (p : ParamSet)
    (fleet : Option Ec2WorkerSpec) : MainStackOutput :=
  let asg : Option String := fleet.map Ec2WorkerSpec.asgName
  { runType := rt
    capacityParamsDeclared := rt == "EC2"
    grants := finderGrants ++ (match fleet with | some _ => workerGrants | none => [])
    resources :=
      [Resource.commonRes (commonStack p.alarmEmail),
       Resource.ecsFinder (ecsTaskSpecOf dc p)]
      ++ (match fleet with | some s => [Resource.ec2WorkerFleet s] | none => [])
      ++ [Resource.dashboard { runType := rt, queueName := dc.sqsQueueName, asgName := asg },
          Resource.eventSubTopology (eventSpecOf dc p) (useS3Event p)]
    asgName := asg }

/--
One composition pass of `DataTransferS3Stack`: resolve the runtime mode
from context, build the fleet branch when selected (aborting the whole
composition on a capacity error), and assemble the final graph.
-/
def mainStack (ctxRunType : Option String) (dc : DeployContext) (p : ParamSet) :
    Except String MainStackOutput :=
  let rt := resolveRunType ctxRunType
  match fleetResult rt dc p with
  | Except.error e => Except.error e
  | Except.ok fleet => Except.ok (mainStackOk rt dc p fleet)

/- ### Helper predicates on composed outputs -/

/-- Is a resource the ECS finder (discovery-task) stack? -/
def isFinderRes : Resource → Bool
  | Resource.ecsFinder _ => true
  | _ => false

/-- Is a resource the EC2 worker fleet? -/
def isFleetRes : Resource → Bool
  | Resource.ec2WorkerFleet _ => true
  | _ => false

/-- Is a resource the event sub-topology? -/
def isEventRes : Resource → Bool
  | Resource.eventSubTopology _ _ => true
  | _ => false

/-- The discovery-task resources are present in the output. -/
def hasFinder (out : MainStackOutput) : Bool := out.resources.any isFinderRes

/-- The worker-fleet resources are present in the output. -/
def hasFleet (out : MainStackOutput) : Bool := out.resources.any isFleetRes

/-- All event sub-topology entries of the output, with their activation bits. -/
def eventEntries (out : MainStackOutput) : List (EventSpec × Bool) :=
  out.resources.filterMap fun r =>
    match r with
    | Resource.eventSubTopology e b => some (e, b)
    | _ => none

/-- All resources of the output other than the event sub-topology. -/
def nonEventResources (out : MainStackOutput) : List Resource :=
  out.resources.filter fun r => !(isEventRes r)

/- ### Concrete inputs used by witnesses and counterexamples -/

/-- A concrete valid parameter set (defaults where declared, concrete values for required parameters). -/
def p0 : ParamSet :=
  { srcType := "Amazon_S3"
    srcBucket := "src-bucket"
    srcPfx := ""
    srcRegion := ""
    srcEndpoint := ""
    srcInCurrentAccount := "true"
    srcCredentials := ""
    destBucket := "dest-bucket"
    destPfx := ""
    destRegion := ""
    destInCurrentAccount := "true"
    destCredentials := ""
    destStorageKind := "STANDARD"
    destAcl := "bucket-owner-full-control"
    ecsClusterName := "transfer-cluster"
    ecsVpcId := "vpc-bef13dc7"
    ecsSubnets := ["subnet-97bfc4cd", "subnet-7ad7de32"]
    alarmEmail := "ops@example.com"
    includeMetadata := "true"
    srcEvent := "No"
    finderDepth := "0"
    finderNumber := "1"
    workerNumber := "4"
    maxCapacity := 20
    minCapacity := 1
    desiredCapacity := 1 }

/-- A concrete deploy context. -/
def dc0 : DeployContext :=
  { region := "us-west-2"
    jobTableName := "S3TransferTable"
    sqsQueueName := "S3TransferQueue" }

/-- The output of the EC2-mode composition on the concrete inputs. -/
def out0 : MainStackOutput :=
  mainStackOk "EC2" dc0 p0 (some (ec2FleetSpecOf (ec2WorkerProps dc0 p0)))

/-- The concrete parameter set with inconsistent capacity bounds (min 5 greater than max 2). -/
def pBadCap : ParamSet := { p0 with minCapacity := 5, maxCapacity := 2 }

/-- The concrete parameter set whose subnet list has a single entry. -/
def p0Subnet1 : ParamSet := { p0 with ecsSubnets := ["subnet-97bfc4cd"] }

/-- The output of the EC2-mode composition on the single-subnet inputs with srcEvent set to Create. -/
def p0Create : ParamSet := { p0 with srcEvent := "Create" }

/-- The output of the EC2-mode composition when srcEvent is Create. -/
def out0Create : MainStackOutput :=
  mainStackOk "EC2" dc0 p0Create (some (ec2FleetSpecOf (ec2WorkerProps dc0 p0Create)))

/-- The variable names of the finder environment contract, in source order. -/
def finderEnvKeys : List String :=
  ["AWS_DEFAULT_REGION", "JOB_TABLE_NAME", "JOB_QUEUE_NAME", "SOURCE_TYPE",
   "SRC_BUCKET", "SRC_PREFIX", "SRC_REGION", "SRC_ENDPOINT", "SRC_CREDENTIALS",
   "SRC_IN_CURRENT_ACCOUNT", "DEST_BUCKET", "DEST_PREFIX", "DEST_REGION",
   "DEST_CREDENTIALS", "DEST_IN_CURRENT_ACCOUNT", "FINDER_DEPTH", "FINDER_NUMBER"]

/-- The variable names of the worker environment contract, in source order. -/
def workerEnvKeys : List String :=
  ["JOB_TABLE_NAME", "JOB_QUEUE_NAME", "SOURCE_TYPE",
   "SRC_BUCKET", "SRC_PREFIX", "SRC_REGION", "SRC_ENDPOINT", "SRC_CREDENTIALS",
   "SRC_IN_CURRENT_ACCOUNT", "DEST_BUCKET", "DEST_PREFIX", "DEST_REGION",
   "DEST_CREDENTIALS", "DEST_IN_CURRENT_ACCOUNT", "DEST_STORAGE_CLASS", "DEST_ACL",
   "FINDER_DEPTH", "FINDER_NUMBER", "WORKER_NUMBER", "INCLUDE_METADATA"]

/- ### Helper lemmas -/

/-- Eliminating a successful composition into its fleet branch and assembled output. -/
theorem mainStack_ok_elim {ctx : Option String} {dc : DeployContext} {p : ParamSet}
    {out : MainStackOutput} (h : mainStack ctx dc p = Except.ok out) :
    ∃ fleet, fleetResult (resolveRunType ctx) dc p = Except.ok fleet ∧
      out = mainStackOk (resolveRunType ctx) dc p fleet := by
  simp only [mainStack] at h
  cases hf : fleetResult (resolveRunType ctx) dc p with
  | error e => rw [hf] at h; simp at h
  | ok fleet =>
    rw [hf] at h
    simp only [Except.ok.injEq] at h
    exact ⟨fleet, rfl, h.symm⟩

/-- Characterizing a successful fleet branch by the selected mode. -/
theorem fleetResult_ok_cases {rt : String} {dc : DeployContext} {p : ParamSet}
    {fleet : Option Ec2WorkerSpec} (h : fleetResult rt dc p = Except.ok fleet) :
    (rt = "EC2" ∧ ∃ s, buildEc2WorkerStack (ec2WorkerProps dc p) = Except.ok s ∧ fleet = some s) ∨
    (rt ≠ "EC2" ∧ fleet = none) := by
  by_cases hrt : rt = "EC2"
  · left
    refine ⟨hrt, ?_⟩
    rw [fleetResult, if_pos hrt] at h
    cases hb : buildEc2WorkerStack (ec2WorkerProps dc p) with
    | error e => rw [hb] at h; exact absurd h (by simp)
    | ok s =>
      rw [hb] at h
      refine ⟨s, rfl, ?_⟩
      injection h with h'
      exact h'.symm
  · right
    refine ⟨hrt, ?_⟩
    rw [fleetResult, if_neg hrt] at h
    injection h with h'
    exact h'.symm

/-- The discovery-task stack is present in every assembled output. -/
theorem hasFinder_mainStackOk (rt : String) (dc : DeployContext) (p : ParamSet)
    (fleet : Option Ec2WorkerSpec) : hasFinder (mainStackOk rt dc p fleet) = true := by
  cases fleet <;> simp [mainStackOk, hasFinder, isFinderRes]

/-- The fleet is present in the assembled output exactly when the fleet branch produced one. -/
theorem hasFleet_mainStackOk (rt : String) (dc : DeployContext) (p : ParamSet)
    (fleet : Option Ec2WorkerSpec) :
    hasFleet (mainStackOk rt dc p fleet) = fleet.isSome := by
  cases fleet <;> simp [mainStackOk, hasFleet, isFleetRes]

/-- The event sub-topology appears exactly once in every assembled output, with its predicate value. -/
theorem eventEntries_mainStackOk (rt : String) (dc : DeployContext) (p : ParamSet)
    (fleet : Option Ec2WorkerSpec) :
    eventEntries (mainStackOk rt dc p fleet) = [(eventSpecOf dc p, useS3Event p)] := by
  cases fleet <;> simp [mainStackOk, eventEntries]

/-- The grants of an assembled output when the fleet was built. -/
theorem grants_mainStackOk_some (rt : String) (dc : DeployContext) (p : ParamSet)
    (s : Ec2WorkerSpec) :
    (mainStackOk rt dc p (some s)).grants = finderGrants ++ workerGrants := rfl

/-- The grants of an assembled output when no fleet was built. -/
theorem grants_mainStackOk_none (rt : String) (dc : DeployContext) (p : ParamSet) :
    (mainStackOk rt dc p none).grants = finderGrants := List.append_nil finderGrants

/-- The non-event resources of an assembled output, explicitly. -/
theorem nonEventResources_mainStackOk (rt : String) (dc : DeployContext) (p : ParamSet)
    (fleet : Option Ec2WorkerSpec) :
    nonEventResources (mainStackOk rt dc p fleet) =
      [Resource.commonRes (commonStack p.alarmEmail),
       Resource.ecsFinder (ecsTaskSpecOf dc p)]
      ++ (match fleet with | some s => [Resource.ec2WorkerFleet s] | none => [])
      ++ [Resource.dashboard
            { runType := rt, queueName := dc.sqsQueueName,
              asgName := fleet.map Ec2WorkerSpec.asgName }] := by
  cases fleet <;> simp [mainStackOk, nonEventResources, isEventRes]

/- ### Claim theorems -/

/--
C1 counterexample: with the FLEET mode selected (runType context "EC2") on
a valid parameter set, the composition instantiates the worker-fleet
resources AND the discovery-task resources — refuting the claim that when
FLEET is selected only the worker-fleet resources exist.
-/
theorem fleet_mode_also_builds_discovery_cx :
    mainStack (some "EC2") dc0 p0 = Except.ok out0 ∧
    validateParams p0 = true ∧
    hasFleet out0 = true ∧ hasFinder out0 = true := by
  refine ⟨rfl, ?_, ?_, ?_⟩ <;> decide

/--
C1 (amended): in every successful composition the discovery-task resources
are instantiated unconditionally, and the worker-fleet resources are
instantiated exactly when the FLEET (EC2) mode is selected — so in CLUSTER
mode only the discovery branch exists, while in FLEET mode the
discovery-task resources exist alongside the worker fleet.
-/
theorem discovery_always_fleet_iff_ec2 :
    ∀ (ctx : Option String) (dc : DeployContext) (p : ParamSet) (out : MainStackOutput),
      mainStack ctx dc p = Except.ok out →
      hasFinder out = true ∧ (hasFleet out = true ↔ resolveRunType ctx = "EC2") := by
  intro ctx dc p out h
  obtain ⟨fleet, hf, rfl⟩ := mainStack_ok_elim h
  refine ⟨hasFinder_mainStackOk .., ?_⟩
  rw [hasFleet_mainStackOk]
  rcases fleetResult_ok_cases hf with ⟨hrt, s, hb, rfl⟩ | ⟨hrt, rfl⟩
  · simp [hrt]
  · simp [hrt]

/-- C1 witness: the amended theorem applied to the concrete EC2-mode composition. -/
theorem discovery_always_fleet_iff_ec2_wit :
    hasFinder out0 = true ∧ (hasFleet out0 = true ↔ resolveRunType (some "EC2") = "EC2") :=
  discovery_always_fleet_iff_ec2 (some "EC2") dc0 p0 out0 rfl

/--
C2: for every FLEET-mode composition whose capacity parameters satisfy
min greater than max, the composition fails with a fatal error, so no
fleet resource specification exists in its output.
-/
theorem min_gt_max_fails_composition :
    ∀ (ctx : Option String) (dc : DeployContext) (p : ParamSet),
      resolveRunType ctx = "EC2" → p.maxCapacity < p.minCapacity →
      ∃ e, mainStack ctx dc p = Except.error e := by
  intro ctx dc p hrt hlt
  refine ⟨"Invalid Auto Scaling Group capacity settings", ?_⟩
  have hb : buildEc2WorkerStack (ec2WorkerProps dc p) =
      Except.error "Invalid Auto Scaling Group capacity settings" := by
    unfold buildEc2WorkerStack
    exact if_pos (Or.inr (Or.inl hlt))
  have hf : fleetResult (resolveRunType ctx) dc p =
      Except.error "Invalid Auto Scaling Group capacity settings" := by
    rw [hrt, fleetResult, if_pos rfl, hb]
  simp only [mainStack]
  rw [hf]

/-- C2 witness: the failure theorem applied to the concrete inconsistent capacities (min 5, max 2). -/
theorem min_gt_max_fails_composition_wit :
    ∃ e, mainStack (some "EC2") dc0 pBadCap = Except.error e :=
  min_gt_max_fails_composition (some "EC2") dc0 pBadCap rfl (by decide)

/--
C3: in every successful composition the event sub-topology carries the
`UseS3Event` activation predicate, and that predicate is true exactly when
the source is in the current account, the source type is Amazon_S3 and the
trigger mode is not "No" — the three-way conjunction, for every assignment
of the three gating parameters.
-/
theorem event_predicate_conjunction :
    ∀ (ctx : Option String) (dc : DeployContext) (p : ParamSet) (out : MainStackOutput),
      mainStack ctx dc p = Except.ok out →
      eventEntries out = [(eventSpecOf dc p, useS3Event p)] ∧
      (useS3Event p = true ↔
        (p.srcInCurrentAccount = "true" ∧ p.srcType = "Amazon_S3" ∧ ¬p.srcEvent = "No")) := by
  intro ctx dc p out h
  obtain ⟨fleet, _, rfl⟩ := mainStack_ok_elim h
  refine ⟨eventEntries_mainStackOk .., ?_⟩
  simp [useS3Event, and_assoc]

/-- C3 witness: the predicate theorem applied to the concrete EC2-mode composition. -/
theorem event_predicate_conjunction_wit :
    eventEntries out0 = [(eventSpecOf dc0 p0, useS3Event p0)] ∧
    (useS3Event p0 = true ↔
      (p0.srcInCurrentAccount = "true" ∧ p0.srcType = "Amazon_S3" ∧ ¬p0.srcEvent = "No")) :=
  event_predicate_conjunction (some "EC2") dc0 p0 out0 rfl

/--
C4: the DLQ alarm declared by CommonStack has threshold 0 with a
strictly-greater-than comparison over one evaluation period, so on a
single sampled visible-message count it fires exactly when the count
exceeds 0, and never fires on a count of 0.
-/
theorem dlq_alarm_zero_tolerance :
    ∀ (email : String) (c : Nat),
      (commonStack email).alarmDLQ.threshold = 0 ∧
      (commonStack email).alarmDLQ.comparison = ComparisonOp.greaterThanThreshold ∧
      (commonStack email).alarmDLQ.evaluationPeriods = 1 ∧
      (commonStack email).alarmDLQ.datapointsToAlarm = 1 ∧
      (alarmFires (commonStack email).alarmDLQ [c] = true ↔ 0 < c) ∧
      alarmFires (commonStack email).alarmDLQ [0] = false := by
  intro email c
  refine ⟨rfl, rfl, rfl, rfl, ?_, rfl⟩
  cases c <;> simp [alarmFires, breaches, commonStack]

/--
C5: in every successful composition the grants are asymmetric between the
two compute roles: the discovery role gets queue send (never consume), the
worker role gets queue consume (never send); the source-bucket grants are
read-only for every role; the destination-bucket grant is read-only for
the discovery role and read-write for the worker role whenever the fleet
exists.
-/
theorem permission_grants_asymmetry :
    ∀ (ctx : Option String) (dc : DeployContext) (p : ParamSet) (out : MainStackOutput),
      mainStack ctx dc p = Except.ok out →
      ({ role := RoleId.finderTaskRole, res := ResId.sqsQueue, access := Access.sendMessages : Grant } ∈ out.grants ∧
       { role := RoleId.finderTaskRole, res := ResId.sqsQueue, access := Access.consumeMessages : Grant } ∉ out.grants ∧
       { role := RoleId.workerAsgRole, res := ResId.sqsQueue, access := Access.sendMessages : Grant } ∉ out.grants) ∧
      (∀ g ∈ out.grants, g.res = ResId.srcBucketRes → g.access = Access.bucketRead) ∧
      ({ role := RoleId.finderTaskRole, res := ResId.destBucketRes, access := Access.bucketRead : Grant } ∈ out.grants ∧
       ∀ g ∈ out.grants, g.role = RoleId.finderTaskRole → g.res = ResId.destBucketRes →
         g.access = Access.bucketRead) ∧
      (hasFleet out = true →
        { role := RoleId.workerAsgRole, res := ResId.sqsQueue, access := Access.consumeMessages : Grant } ∈ out.grants ∧
        { role := RoleId.workerAsgRole, res := ResId.destBucketRes, access := Access.bucketReadWrite : Grant } ∈ out.grants ∧
        ∀ g ∈ out.grants, g.role = RoleId.workerAsgRole → g.res = ResId.destBucketRes →
          g.access = Access.bucketReadWrite) := by
  intro ctx dc p out h
  obtain ⟨fleet, _, rfl⟩ := mainStack_ok_elim h
  cases fleet with
  | none =>
    rw [grants_mainStackOk_none, hasFleet_mainStackOk]
    simp only [Option.isSome_none]
    decide
  | some s =>
    rw [grants_mainStackOk_some, hasFleet_mainStackOk]
    simp only [Option.isSome_some]
    decide

/-- C5 witness: the grant-asymmetry theorem applied to the concrete EC2-mode composition. -/
theorem permission_grants_asymmetry_wit :
    ({ role := RoleId.finderTaskRole, res := ResId.sqsQueue, access := Access.sendMessages : Grant } ∈ out0.grants ∧
     { role := RoleId.finderTaskRole, res := ResId.sqsQueue, access := Access.consumeMessages : Grant } ∉ out0.grants ∧
     { role := RoleId.workerAsgRole, res := ResId.sqsQueue, access := Access.sendMessages : Grant } ∉ out0.grants) ∧
    (∀ g ∈ out0.grants, g.res = ResId.srcBucketRes → g.access = Access.bucketRead) ∧
    ({ role := RoleId.finderTaskRole, res := ResId.destBucketRes, access := Access.bucketRead : Grant } ∈ out0.grants ∧
     ∀ g ∈ out0.grants, g.role = RoleId.finderTaskRole → g.res = ResId.destBucketRes →
       g.access = Access.bucketRead) ∧
    (hasFleet out0 = true →
      { role := RoleId.workerAsgRole, res := ResId.sqsQueue, access := Access.consumeMessages : Grant } ∈ out0.grants ∧
      { role := RoleId.workerAsgRole, res := ResId.destBucketRes, access := Access.bucketReadWrite : Grant } ∈ out0.grants ∧
      ∀ g ∈ out0.grants, g.role = RoleId.workerAsgRole → g.res = ResId.destBucketRes →
        g.access = Access.bucketReadWrite) :=
  permission_grants_asymmetry (some "EC2") dc0 p0 out0 rfl

/--
C6: the event sub-topology is constructed in every successful composition;
changing only the trigger-mode parameter (srcEvent) leaves the grants, the
fleet name, the declared capacity parameters and every non-event resource
specification unchanged, altering only the event entry's events field and
its activation predicate.
-/
theorem event_toggle_only_changes_event :
    ∀ (ctx : Option String) (dc : DeployContext) (p : ParamSet) (ev : String)
      (outA outB : MainStackOutput),
      mainStack ctx dc p = Except.ok outA →
      mainStack ctx dc { p with srcEvent := ev } = Except.ok outB →
      outB.grants = outA.grants ∧
      outB.asgName = outA.asgName ∧
      outB.capacityParamsDeclared = outA.capacityParamsDeclared ∧
      nonEventResources outB = nonEventResources outA ∧
      eventEntries outA = [(eventSpecOf dc p, useS3Event p)] ∧
      eventEntries outB =
        [({ eventSpecOf dc p with events := ev }, useS3Event { p with srcEvent := ev })] := by
  intro ctx dc p ev outA outB hA hB
  obtain ⟨fleetA, hfA, rfl⟩ := mainStack_ok_elim hA
  obtain ⟨fleetB, hfB, rfl⟩ := mainStack_ok_elim hB
  have hsame : fleetResult (resolveRunType ctx) dc { p with srcEvent := ev } =
      fleetResult (resolveRunType ctx) dc p := rfl
  rw [hsame, hfA] at hfB
  injection hfB with hfeq
  subst hfeq
  refine ⟨rfl, rfl, rfl, ?_, eventEntries_mainStackOk .., eventEntries_mainStackOk ..⟩
  rw [nonEventResources_mainStackOk, nonEventResources_mainStackOk]
  rfl

/-- C6 witness: the toggle theorem applied to the concrete composition with srcEvent changed from No to Create. -/
theorem event_toggle_only_changes_event_wit :
    out0Create.grants = out0.grants ∧
    out0Create.asgName = out0.asgName ∧
    out0Create.capacityParamsDeclared = out0.capacityParamsDeclared ∧
    nonEventResources out0Create = nonEventResources out0 ∧
    eventEntries out0 = [(eventSpecOf dc0 p0, useS3Event p0)] ∧
    eventEntries out0Create =
      [({ eventSpecOf dc0 p0 with events := "Create" }, useS3Event { p0 with srcEvent := "Create" })] :=
  event_toggle_only_changes_event (some "EC2") dc0 p0 "Create" out0 out0Create rfl rfl

/--
C7 counterexample: the finder environment contract contains the variable
AWS_DEFAULT_REGION but the worker environment contract does not — so the
worker contract is not a superset of the discovery contract's fields.
-/
theorem worker_env_missing_region_cx :
    ("AWS_DEFAULT_REGION" ∈ (finderEnv dc0 p0).map Prod.fst) ∧
    ("AWS_DEFAULT_REGION" ∉ (workerEnv dc0 p0).map Prod.fst) := by
  decide

/--
C7 (amended): for every deploy context and parameter set, the worker
contract contains every discovery-contract field except AWS_DEFAULT_REGION,
and additionally contains the storage-class, ACL, metadata-inclusion and
worker-thread-count variables, none of which the discovery contract has;
the discovery contract does contain the region variable, which the worker
contract lacks.
-/
theorem worker_env_superset_except_region :
    ∀ (dc : DeployContext) (p : ParamSet),
      (finderEnv dc p).map Prod.fst = finderEnvKeys ∧
      (workerEnv dc p).map Prod.fst = workerEnvKeys ∧
      (finderEnvKeys.filter (fun k => !(k == "AWS_DEFAULT_REGION"))).all
        (fun k => workerEnvKeys.contains k) = true ∧
      workerEnvKeys.contains "DEST_STORAGE_CLASS" = true ∧
      workerEnvKeys.contains "DEST_ACL" = true ∧
      workerEnvKeys.contains "INCLUDE_METADATA" = true ∧
      workerEnvKeys.contains "WORKER_NUMBER" = true ∧
      finderEnvKeys.contains "DEST_STORAGE_CLASS" = false ∧
      finderEnvKeys.contains "DEST_ACL" = false ∧
      finderEnvKeys.contains "INCLUDE_METADATA" = false ∧
      finderEnvKeys.contains "WORKER_NUMBER" = false ∧
      finderEnvKeys.contains "AWS_DEFAULT_REGION" = true ∧
      workerEnvKeys.contains "AWS_DEFAULT_REGION" = false := by
  intro dc p
  exact ⟨rfl, rfl, by decide, by decide, by decide, by decide, by decide, by decide,
    by decide, by decide, by decide, by decide, by decide⟩

/--
C8 counterexample: a parameter set whose subnet list has a single entry and
which satisfies every declared parameter constraint — validation succeeds,
refuting the claim that it fails for subnet lists with fewer than 2 entries.
-/
theorem single_subnet_passes_validation_cx :
    validateParams p0Subnet1 = true ∧ p0Subnet1.ecsSubnets.length = 1 := by
  refine ⟨?_, ?_⟩ <;> decide

/--
C8 (amended): no declared parameter constraint mentions the subnet list, so
validation is independent of the subnet list's contents and length; in
particular a single-entry list passes whenever the other parameters are
valid, and lists of two or more entries are equally accepted.
-/
theorem validation_ignores_subnet_count :
    (∀ (p : ParamSet) (xs : List String),
      validateParams { p with ecsSubnets := xs } = validateParams p) ∧
    validateParams p0 = true := by
  exact ⟨fun p xs => rfl, by decide⟩

/--
C9: when no runType context value is supplied, the composition resolves the
mode to EC2 (the worker-fleet mode): for consistent capacity parameters the
capacity parameters are declared, the worker fleet is built, and the fleet
handle is present in the output.
-/
theorem default_mode_is_ec2_fleet :
    ∀ (dc : DeployContext) (p : ParamSet),
      0 ≤ p.minCapacity → p.minCapacity ≤ p.desiredCapacity → p.desiredCapacity ≤ p.maxCapacity →
      resolveRunType none = "EC2" ∧
      ∃ out, mainStack none dc p = Except.ok out ∧
        out.capacityParamsDeclared = true ∧
        hasFleet out = true ∧
        out.asgName = some "Worker-ASG" := by
  intro dc p h0 h1 h2
  have hc : ¬((ec2WorkerProps dc p).minCapacity < 0 ∨
      (ec2WorkerProps dc p).maxCapacity < (ec2WorkerProps dc p).minCapacity ∨
      (ec2WorkerProps dc p).desiredCapacity < (ec2WorkerProps dc p).minCapacity ∨
      (ec2WorkerProps dc p).maxCapacity < (ec2WorkerProps dc p).desiredCapacity) := by
    show ¬(p.minCapacity < 0 ∨ p.maxCapacity < p.minCapacity ∨
      p.desiredCapacity < p.minCapacity ∨ p.maxCapacity < p.desiredCapacity)
    omega
  have hb : buildEc2WorkerStack (ec2WorkerProps dc p) =
      Except.ok (ec2FleetSpecOf (ec2WorkerProps dc p)) := by
    unfold buildEc2WorkerStack
    exact if_neg hc
  have hf : fleetResult (resolveRunType none) dc p =
      Except.ok (some (ec2FleetSpecOf (ec2WorkerProps dc p))) := by
    rw [show resolveRunType none = "EC2" from rfl, fleetResult, if_pos rfl, hb]
  refine ⟨rfl, mainStackOk "EC2" dc p (some (ec2FleetSpecOf (ec2WorkerProps dc p))), ?_, rfl, ?_, rfl⟩
  · simp only [mainStack]
    rw [hf]
    rfl
  · rw [hasFleet_mainStackOk]
    rfl

/-- C9 witness: the default-mode theorem applied to the concrete inputs with default capacities 1, 1, 20. -/
theorem default_mode_is_ec2_fleet_wit :
    resolveRunType none = "EC2" ∧
    ∃ out, mainStack none dc0 p0 = Except.ok out ∧
      out.capacityParamsDeclared = true ∧
      hasFleet out = true ∧
      out.asgName = some "Worker-ASG" :=
  default_mode_is_ec2_fleet dc0 p0 (by decide) (by decide) (by decide)

/--
C10: in every composition the dead-letter queue is created with KMS-managed
encryption at rest, the main work queue is created without encryption, and
both queues retain messages for 14 days.
-/
theorem queue_encryption_retention :
    ∀ (email : String),
      (commonStack email).sqsQueueDLQ.encryption = QueueEncryption.kmsManaged ∧
      (commonStack email).sqsQueue.encryption = QueueEncryption.unencrypted ∧
      (commonStack email).sqsQueue.retentionDays = 14 ∧
      (commonStack email).sqsQueueDLQ.retentionDays = 14 := by
  intro email
  exact ⟨rfl, rfl, rfl, rfl⟩

end DataTransferS3
